import Mathlib

/-!
Shallow embedding of the rdcache client (src/client.rs, src/script.rs,
src/error.rs): a strongly-consistent cache-aside coordinator over Redis.

Modelling conventions:
* A Rust `Duration` is a `Nat` counting nanoseconds; `Duration::as_secs`
  is integer division by 10^9; `Duration` subtraction, which panics on
  underflow in Rust, is `durationSub` returning `Option` (`none` = panic).
* The `f64` field `random_expire_adjustment` is an exact non-negative
  fraction `Frac`; `(adj * secs as f64) as u64` (a truncating cast) is
  `adjustFloor`, i.e. `num * secs / den` in `Nat` arithmetic.  For the
  configurations appearing in the claims (factor 0.1, second counts in the
  hundreds) f64 rounding and exact arithmetic agree.
* The Redis state for the single key touched by a call is `Option Entry`:
  a hash with fields `value`, `lockUntil`, `lockOwner`, plus its TTL;
  `none` means the key is absent.  `HSET` on an absent key creates it
  (with no TTL), `HDEL` of the last field removes the key, and `EXPIRE`
  with 0 seconds deletes the key, as in Redis.
* The stored `value` field holds msgpack bytes of an `Option V`; the codec
  round-trips, so the model stores the decoded `Option V` directly.  A
  reply whose `value` element is not a bulk string maps to the
  `Error::RedisError(rustis::Error::Aborted)` branch of `strong_fetch`.
* Redis script round-trips are modelled as succeeding; the two
  fire-and-forget calls whose failures the code explicitly discards
  (the `DEL` on empty results and `unlock_for_update`) carry an explicit
  Boolean saying whether they reached the server.
* Loops driven by real time (`strong_fetch`'s poll loop) take a `fuel`
  bound on the number of GET_SCRIPT round-trips; `none` means the loop is
  still running after `fuel` polls.
-/

namespace Rdcache

/-- Rust `Duration::from_secs`: nanosecond count of a whole-second duration. -/
def durationFromSecs (s : Nat) : Nat := s * 1000000000

/-- Rust `Duration::from_millis`. -/
def durationFromMillis (ms : Nat) : Nat := ms * 1000000

/-- Rust `Duration::as_secs`: whole seconds, fractional part truncated. -/
def durationAsSecs (d : Nat) : Nat := d / 1000000000

/-- Rust `Duration` subtraction; `none` models the panic on underflow. -/
def durationSub (a b : Nat) : Option Nat :=
  if b ≤ a then some (a - b) else none

/-- Exact non-negative fraction standing for the `f64` adjustment factor. -/
structure Frac where
  num : Nat
  den : Nat
deriving DecidableEq, Repr

/-- The truncating cast `(adj * (secs as f64)) as u64` of `client.rs:81`,
computed exactly: `⌊num * secs / den⌋`. -/
def adjustFloor (a : Frac) (secs : Nat) : Nat := a.num * secs / a.den

/-- `Options` of `client.rs:18`: the tuning parameters.  Durations are in
nanoseconds. -/
structure Options where
  delay : Nat
  empty_expire : Nat
  lock_expire : Nat
  lock_sleep : Nat
  random_expire_adjustment : Frac
  disable_cache_read : Bool
  disable_cache_delete : Bool
deriving DecidableEq, Repr

/-- `Options::default` of `client.rs:41`. -/
def defaultOptions : Options :=
  ⟨durationFromSecs 10, durationFromSecs 60, durationFromSecs 3,
   durationFromMillis 100, ⟨1, 10⟩, false, false⟩

/-- `rustis::Error`, restricted to what the client distinguishes. -/
inductive RustisErr where
  | aborted
  | other (msg : String)
deriving DecidableEq, Repr

/-- `Error` of `error.rs:2`. -/
inductive Error where
  | redisError (e : RustisErr)
  | encodeError (msg : String)
  | decodeError (msg : String)
deriving DecidableEq, Repr

/-- One cache key's Redis hash: the three fields of §3 plus the key TTL in
seconds (`none` = no expiry set). -/
structure Entry (V : Type) where
  value : Option (Option V)
  lockUntil : Option Nat
  lockOwner : Option String
  ttl : Option Nat
deriving DecidableEq, Repr

/-- Redis state for one key; `none` = key absent. -/
abbrev RState (V : Type) := Option (Entry V)

/-- `HGET key value`; `none` models the Lua `false`. -/
def hgetValue {V : Type} : RState V → Option (Option V)
  | none => none
  | some e => e.value

/-- `HGET key lockUntil`. -/
def hgetLockUntil {V : Type} : RState V → Option Nat
  | none => none
  | some e => e.lockUntil

/-- `HGET key lockOwner`. -/
def hgetLockOwner {V : Type} : RState V → Option String
  | none => none
  | some e => e.lockOwner

/-- TTL of the key in seconds, for stating frame facts. -/
def keyTtl {V : Type} : RState V → Option Nat
  | none => none
  | some e => e.ttl

/-- `HSET key value v`: creates the key (without TTL) when absent. -/
def hsetValue {V : Type} (st : RState V) (v : Option V) : RState V :=
  match st with
  | none => some ⟨some v, none, none, none⟩
  | some e => some { e with value := some v }

/-- `HSET key lockUntil lu`. -/
def hsetLockUntil {V : Type} (st : RState V) (lu : Nat) : RState V :=
  match st with
  | none => some ⟨none, some lu, none, none⟩
  | some e => some { e with lockUntil := some lu }

/-- `HSET key lockOwner ow`. -/
def hsetLockOwner {V : Type} (st : RState V) (ow : String) : RState V :=
  match st with
  | none => some ⟨none, none, some ow, none⟩
  | some e => some { e with lockOwner := some ow }

/-- `HDEL key lockUntil`; deleting the last field removes the key. -/
def hdelLockUntil {V : Type} (st : RState V) : RState V :=
  match st with
  | none => none
  | some e =>
    if e.value.isNone && e.lockOwner.isNone then none
    else some { e with lockUntil := none }

/-- `HDEL key lockOwner`; deleting the last field removes the key. -/
def hdelLockOwner {V : Type} (st : RState V) : RState V :=
  match st with
  | none => none
  | some e =>
    if e.value.isNone && e.lockUntil.isNone then none
    else some { e with lockOwner := none }

/-- `EXPIRE key secs`: no-op on a missing key; a non-positive timeout
deletes the key, as in Redis. -/
def expireKey {V : Type} (st : RState V) (secs : Nat) : RState V :=
  match st with
  | none => none
  | some e => if secs = 0 then none else some { e with ttl := some secs }

/-- `DEL key`. -/
def delKey {V : Type} (_ : RState V) : RState V := none

/-- Second element of a GET_SCRIPT reply, as the client receives it:
Lua `false` becomes nil, a stored `lockUntil` comes back as a numeric
bulk string, and the sentinel is the bulk string LOCKED. -/
inductive LuReply where
  | nil
  | locked
  | num (lu : Nat)
deriving DecidableEq, Repr

/-- The guard of GET_SCRIPT (`script.rs:37`):
`lu ~= false and tonumber(lu) < tonumber(ARGV[1]) or lu == false and v == false`
(Lua `and` binds tighter than `or`). -/
def takesLockPath {V : Type} (st : RState V) (now : Nat) : Bool :=
  match hgetLockUntil st, hgetValue st with
  | some l, _ => decide (l < now)
  | none, none => true
  | none, some _ => false

/-- GET_SCRIPT (`script.rs:32`), KEYS=[k], ARGV=[now, lockDeadline, owner]:
returns the new state and the pair `(value, second element)`. -/
def getScript {V : Type} (st : RState V) (now lockDeadline : Nat)
    (owner : String) : RState V × Option (Option V) × LuReply :=
  let v := hgetValue st
  if takesLockPath st now then
    (hsetLockOwner (hsetLockUntil st lockDeadline) owner, v, LuReply.locked)
  else
    (st, v,
      match hgetLockUntil st with
      | some l => LuReply.num l
      | none => LuReply.nil)

/-- SET_SCRIPT (`script.rs:46`), KEYS=[k], ARGV=[valueBytes, owner, expireSecs]:
a silent no-op unless the stored `lockOwner` equals the caller's owner. -/
def setScript {V : Type} (st : RState V) (v : Option V) (owner : String)
    (exSecs : Nat) : RState V :=
  if hgetLockOwner st = some owner then
    expireKey (hdelLockOwner (hdelLockUntil (hsetValue st v))) exSecs
  else st

/-- UNLOCK_SCRIPT (`script.rs:60`), KEYS=[k], ARGV=[owner, expireSecs]. -/
def unlockScript {V : Type} (st : RState V) (owner : String)
    (exSecs : Nat) : RState V :=
  if hgetLockOwner st = some owner then
    expireKey (hdelLockOwner (hsetLockUntil st 0)) exSecs
  else st

/-- DELETE_SCRIPT (`script.rs:23`), KEYS=[k], ARGV=[delaySecs]. -/
def deleteScript {V : Type} (st : RState V) (delaySecs : Nat) : RState V :=
  expireKey (hdelLockOwner (hsetLockUntil st 0)) delaySecs

/-- Poll-loop guard of `client.rs:124`:
`lock_until != Value::Nil && lock_until.to_string() != "LOCKED"`.
A nil reply fails the first conjunct, the LOCKED bulk string fails the
second, and a numeric bulk string (digits only) satisfies both. -/
def pollAgain : LuReply → Bool
  | LuReply.num _ => true
  | _ => false

/-- Post-loop test of `client.rs:138`: `lock_until.to_string() != "LOCKED"`
is the negation of this. -/
def LuReply.isLocked : LuReply → Bool
  | LuReply.locked => true
  | _ => false

/-- Adds one to the GET_SCRIPT round-trip count of a loop result. -/
def bumpCalls {V : Type} :
    Option (RState V × Option (Option V) × LuReply × Nat) →
    Option (RState V × Option (Option V) × LuReply × Nat) :=
  Option.map fun r => (r.1, r.2.1, r.2.2.1, r.2.2.2 + 1)

/-- The acquire/poll loop of `strong_fetch` (`client.rs:113`): issue
GET_SCRIPT, and while the reply is neither nil nor LOCKED, sleep and
re-issue with the *same* `now` and deadline.  Returns the final state, the
last `(value, reply)` pair and the number of GET_SCRIPT calls; `none` =
still polling after `fuel` calls. -/
def strongFetchLoop {V : Type} (now lockDeadline : Nat) (owner : String) :
    RState V → Nat → Option (RState V × Option (Option V) × LuReply × Nat)
  | _, 0 => none
  | st, fuel + 1 =>
    let r := getScript st now lockDeadline owner
    if pollAgain r.2.2 then bumpCalls (strongFetchLoop now lockDeadline owner r.1 fuel)
    else some (r.1, r.2.1, r.2.2, 1)

/-- `fetch_new` (`client.rs:147`): run the loader while holding the lock.
`unlockRuns` / `delRuns` say whether the fire-and-forget UNLOCK_SCRIPT /
`DEL` round-trips (whose errors the code discards) reached Redis. -/
def fetchNew {V : Type} (o : Options) (st : RState V) (owner : String)
    (expire : Nat) (loaderResult : Except Error (Option V))
    (unlockRuns delRuns : Bool) : RState V × Except Error (Option V) :=
  match loaderResult with
  | Except.error e =>
    let st1 := if unlockRuns then unlockScript st owner (durationAsSecs o.lock_expire) else st
    (st1, Except.error e)
  | Except.ok result =>
    let expire1 := if result.isNone then o.empty_expire else expire
    let st1 :=
      if result.isNone && (durationAsSecs o.empty_expire == 0) && delRuns
      then delKey st else st
    (setScript st1 result owner (durationAsSecs expire1), Except.ok result)

/-- `strong_fetch` (`client.rs:105`): poll with a frozen `now`, then either
decode the cached bulk string (reply not LOCKED) or run the loader as the
lock owner.  `none` = the poll loop is still running after `fuel` calls. -/
def strongFetch {V : Type} (o : Options) (now : Nat) (owner : String)
    (expire : Nat) (st : RState V) (loaderResult : Except Error (Option V))
    (unlockRuns delRuns : Bool) (fuel : Nat) :
    Option (RState V × Except Error (Option V)) :=
  match strongFetchLoop now (now + durationAsSecs o.lock_expire) owner st fuel with
  | none => none
  | some (st1, v, lr, _) =>
    if lr.isLocked then some (fetchNew o st1 owner expire loaderResult unlockRuns delRuns)
    else
      match v with
      | some payload => some (st1, Except.ok payload)
      | none => some (st1, Except.error (Error.redisError RustisErr.aborted))

/-- The effective-expiry computation of `fetch` (`client.rs:78`):
`expire - delay - Duration::from_secs((adj * expire.as_secs() as f64) as u64)`;
`none` models the panic of Rust `Duration` subtraction on underflow. -/
def computeEx (o : Options) (expire : Nat) : Option Nat :=
  match durationSub expire o.delay with
  | none => none
  | some d =>
    durationSub d
      (durationFromSecs (adjustFloor o.random_expire_adjustment (durationAsSecs expire)))

instance {ε α : Type} [DecidableEq ε] [DecidableEq α] : DecidableEq (Except ε α) := fun x y =>
  match x, y with
  | Except.ok a, Except.ok b =>
    if h : a = b then isTrue (by rw [h])
    else isFalse (by intro hc; cases hc; exact h rfl)
  | Except.error a, Except.error b =>
    if h : a = b then isTrue (by rw [h])
    else isFalse (by intro hc; cases hc; exact h rfl)
  | Except.ok _, Except.error _ => isFalse (by intro hc; cases hc)
  | Except.error _, Except.ok _ => isFalse (by intro hc; cases hc)

/-- Outcome of a `fetch` call. -/
inductive FetchOutcome (V : Type) where
  | panicked
  | noFuel
  | done (st : RState V) (r : Except Error (Option V))
deriving DecidableEq, Repr

/-- `fetch` (`client.rs:67`): the effective expiry is computed *before* the
`disable_cache_read` test; with the flag set the loader result is returned
without touching Redis, otherwise `strong_fetch` runs. -/
def fetch {V : Type} (o : Options) (expire : Nat) (st : RState V) (now : Nat)
    (owner : String) (loaderResult : Except Error (Option V))
    (unlockRuns delRuns : Bool) (fuel : Nat) : FetchOutcome V :=
  match computeEx o expire with
  | none => FetchOutcome.panicked
  | some ex =>
    if o.disable_cache_read then FetchOutcome.done st loaderResult
    else
      match strongFetch o now owner ex st loaderResult unlockRuns delRuns fuel with
      | none => FetchOutcome.noFuel
      | some (st1, r) => FetchOutcome.done st1 r

/-- `tag_as_deleted` (`client.rs:90`); the Boolean records whether a Redis
command was issued. -/
def tagAsDeleted {V : Type} (o : Options) (st : RState V) : RState V × Bool :=
  if o.disable_cache_delete then (st, false)
  else (deleteScript st (durationAsSecs o.delay), true)

/-- What one `send` of an EVALSHA comes back as, for the executor model:
a transport error, a response whose text contains `kind: NoScript`, or a
response `v` whose conversion `v.to()` succeeds or fails. -/
inductive SendResp (A : Type) where
  | sendErr (e : RustisErr)
  | noScript
  | convOk (a : A)
  | convErr (e : RustisErr)
deriving DecidableEq, Repr

/-- How `call_lua` turns the second EVALSHA's send result into its return
value (`client.rs:230`): no NoScript detection, just `v.to()` with
conversion failures (including a still-missing-script error value) and
transport errors wrapped as `Error::RedisError`. -/
def respConvert {A : Type} : SendResp A → Except Error A
  | SendResp.sendErr e => Except.error (Error.redisError e)
  | SendResp.noScript => Except.error (Error.redisError (RustisErr.other "NoScript"))
  | SendResp.convOk a => Except.ok a
  | SendResp.convErr e => Except.error (Error.redisError e)

/-- `call_lua` (`client.rs:205`): `first`/`second` are the outcomes of the
two possible EVALSHA round-trips, `loadOk` the outcome of SCRIPT LOAD.
Returns the result and the number of EVALSHA commands sent.  The two arms
of the Rust `match` on the SCRIPT LOAD result are textually identical,
which the `if` with equal branches mirrors. -/
def callLua {A : Type} (first second : SendResp A) (loadOk : Bool) :
    Except Error A × Nat :=
  match first with
  | SendResp.sendErr e => (Except.error (Error.redisError e), 1)
  | SendResp.noScript =>
    if loadOk then (respConvert second, 2) else (respConvert second, 2)
  | SendResp.convOk a => (Except.ok a, 1)
  | SendResp.convErr e => (Except.error (Error.redisError e), 1)

/-- `adjustFloor` applied to the whole-second count of `expire`, as a
nanosecond duration: the amount `fetch` subtracts after `delay`. -/
def adjustDur (o : Options) (expire : Nat) : Nat :=
  durationFromSecs (adjustFloor o.random_expire_adjustment (durationAsSecs expire))

/-- The state GET_SCRIPT leaves behind when the caller acquires the lock
with deadline `now + lock_expire` (the call site at `client.rs:113`). -/
def acquiredState {V : Type} (o : Options) (st : RState V) (now : Nat)
    (ow : String) : RState V :=
  (getScript st now (now + durationAsSecs o.lock_expire) ow).1

theorem durationAsSecs_fromSecs (s : Nat) :
    durationAsSecs (durationFromSecs s) = s := by
  rw [durationAsSecs, durationFromSecs, Nat.mul_div_cancel _ (by norm_num)]

theorem hgetLockOwner_hsetLockOwner {V : Type} (st : RState V) (ow : String) :
    hgetLockOwner (hsetLockOwner st ow) = some ow := by
  cases st <;> rfl

/-- A hash state whose lock expires exactly at the probing timestamp. -/
def stBoundary : RState Nat := some ⟨none, some 5, some "other", none⟩

/-- A hash state whose lock expired strictly before the probing timestamp. -/
def stExpired : RState Nat := some ⟨none, some 3, some "other", none⟩

/-- C2 (counterexample): with `lockUntil = 5` and `now = 5` (the boundary
case `lockUntil = now` the claim singles out), GET_SCRIPT does *not* steal
the lock: the second element is the numeric `lockUntil`, not LOCKED, and
the stored `lockOwner` is untouched. -/
theorem getScript_boundary_not_stolen :
    (getScript stBoundary 5 8 "me").2.2 ≠ LuReply.locked ∧
    hgetLockOwner (getScript stBoundary 5 8 "me").1 = some "other" := by
  constructor
  · intro h
    cases h
  · rfl

/-- C2 (amended): a GET_SCRIPT invocation steals the lock exactly when the
stored `lockUntil` is *strictly* below `now` (the script's guard is
`tonumber(lu) < tonumber(ARGV[1])`): then it writes the `lockDeadline` and
`owner` arguments and returns LOCKED.  In the boundary case
`lockUntil = now` the lock is still treated as held: the state is
unchanged and the second element is the numeric `lockUntil`. -/
theorem getScript_steal_iff_strictly_expired {V : Type} (st : RState V)
    (now dl : Nat) (ow : String) (l : Nat) (h : hgetLockUntil st = some l) :
    (l < now →
      getScript st now dl ow =
        (hsetLockOwner (hsetLockUntil st dl) ow, hgetValue st, LuReply.locked) ∧
      hgetLockUntil (getScript st now dl ow).1 = some dl ∧
      hgetLockOwner (getScript st now dl ow).1 = some ow) ∧
    (now ≤ l →
      getScript st now dl ow = (st, hgetValue st, LuReply.num l)) := by
  constructor
  · intro hlt
    have hpath : takesLockPath st now = true := by
      unfold takesLockPath
      rw [h]
      simpa using hlt
    refine ⟨by simp [getScript, hpath], ?_, ?_⟩
    · cases st with
      | none => simp [hgetLockUntil] at h
      | some e => simp [getScript, hpath, hsetLockUntil, hsetLockOwner, hgetLockUntil]
    · cases st with
      | none => simp [hgetLockUntil] at h
      | some e => simp [getScript, hpath, hsetLockUntil, hsetLockOwner, hgetLockOwner]
  · intro hge
    have hpath : takesLockPath st now = false := by
      unfold takesLockPath
      rw [h]
      simpa using Nat.not_lt.mpr hge
    simp [getScript, hpath, h]

/-- Witness for the amended C2 theorem at `now = 5`: a lock that expired at
3 is stolen, a lock expiring exactly at 5 is left alone. -/
theorem getScript_steal_iff_strictly_expired_witness :
    getScript stExpired 5 8 "me" =
      (hsetLockOwner (hsetLockUntil stExpired 8) "me", hgetValue stExpired,
        LuReply.locked) ∧
    getScript stBoundary 5 8 "me" =
      (stBoundary, hgetValue stBoundary, LuReply.num 5) :=
  ⟨((getScript_steal_iff_strictly_expired stExpired 5 8 "me" 3 rfl).1
      (by decide)).1,
   (getScript_steal_iff_strictly_expired stBoundary 5 8 "me" 5 rfl).2
      (by decide)⟩

/-- C6 (confirmed): SET_SCRIPT with a non-matching owner (including an
absent `lockOwner`) returns before any write: the whole hash, its lock
fields and its TTL are exactly as before.  With a matching owner it writes
the value, drops both lock fields and sets the TTL to the expire
argument. -/
theorem setScript_ownership_frame {V : Type} (st : RState V) (v : Option V)
    (ow : String) (ex : Nat) :
    (hgetLockOwner st ≠ some ow → setScript st v ow ex = st) ∧
    (hgetLockOwner st = some ow → 0 < ex →
      setScript st v ow ex = some ⟨some v, none, none, some ex⟩) := by
  constructor
  · intro h
    simp [setScript, h]
  · intro h hex
    cases st with
    | none => simp [hgetLockOwner] at h
    | some e =>
      simp [setScript, h, hsetValue, hdelLockUntil, hdelLockOwner, expireKey,
        Nat.pos_iff_ne_zero.mp hex]

/-- Witness for C6: a locked entry is committed by its owner (value
written, lock fields dropped, TTL 4), and an entry whose `lockOwner` is
absent is left byte-for-byte unchanged by a foreign SET_SCRIPT. -/
theorem setScript_ownership_frame_witness :
    setScript (some ⟨some (some 1), some 7, some "me", some 9⟩ : RState Nat)
        (some 2) "me" 4 = some ⟨some (some 2), none, none, some 4⟩ ∧
    setScript (some ⟨some (some 1), none, none, some 9⟩ : RState Nat)
        (some 2) "me" 4 = some ⟨some (some 1), none, none, some 9⟩ :=
  ⟨(setScript_ownership_frame
      (some ⟨some (some 1), some 7, some "me", some 9⟩) (some 2) "me" 4).2
      rfl (by decide),
   (setScript_ownership_frame
      (some ⟨some (some 1), none, none, some 9⟩) (some 2) "me" 4).1
      (by decide)⟩

/-- C9 (confirmed): with `disable_cache_delete` set, `tag_as_deleted`
returns success without issuing any Redis command; otherwise it runs
DELETE_SCRIPT with the delay in seconds, which sets `lockUntil := 0`,
removes `lockOwner`, sets the key TTL to `delay`, and leaves the `value`
field exactly as it was. -/
theorem tagAsDeleted_spec {V : Type} (o : Options) (st : RState V) :
    (o.disable_cache_delete = true → tagAsDeleted o st = (st, false)) ∧
    (o.disable_cache_delete = false → 0 < durationAsSecs o.delay →
      (tagAsDeleted o st).2 = true ∧
      hgetLockUntil (tagAsDeleted o st).1 = some 0 ∧
      hgetLockOwner (tagAsDeleted o st).1 = none ∧
      keyTtl (tagAsDeleted o st).1 = some (durationAsSecs o.delay) ∧
      hgetValue (tagAsDeleted o st).1 = hgetValue st) := by
  constructor
  · intro h
    simp [tagAsDeleted, h]
  · intro h hd
    cases st with
    | none =>
      simp [tagAsDeleted, h, deleteScript, hsetLockUntil, hdelLockOwner,
        expireKey, hgetLockUntil, hgetLockOwner, keyTtl, hgetValue,
        Nat.pos_iff_ne_zero.mp hd]
    | some e =>
      simp [tagAsDeleted, h, deleteScript, hsetLockUntil, hdelLockOwner,
        expireKey, hgetLockUntil, hgetLockOwner, keyTtl, hgetValue,
        Nat.pos_iff_ne_zero.mp hd]

/-- Witness for C9 with the default options (delete enabled, delay 10 s) on
an entry holding a stale value and a foreign lock. -/
theorem tagAsDeleted_spec_witness :
    (tagAsDeleted defaultOptions
        (some ⟨some (some 3), some 42, some "other", some 99⟩ : RState Nat)).2
      = true ∧
    (tagAsDeleted defaultOptions
        (some ⟨some (some 3), some 42, some "other", some 99⟩ : RState Nat)).1
      = some ⟨some (some 3), some 0, none, some 10⟩ := by
  have h := (tagAsDeleted_spec defaultOptions
      (some ⟨some (some 3), some 42, some "other", some 99⟩ : RState Nat)).2
      rfl (by decide)
  exact ⟨h.1, by rfl⟩

/-- C8 (confirmed): the executor retries EVALSHA exactly once after a
response whose text contains `kind: NoScript`, returning the second
EVALSHA's result whether SCRIPT LOAD succeeded or failed; a transport
error or a non-NoScript response error is surfaced as a RedisError with no
second EVALSHA. -/
theorem callLua_dispatch {A : Type} (first second : SendResp A)
    (loadOk : Bool) :
    (first = SendResp.noScript →
      callLua first second loadOk = (respConvert second, 2) ∧
      callLua first second true = callLua first second false) ∧
    (∀ e, first = SendResp.sendErr e →
      callLua first second loadOk = (Except.error (Error.redisError e), 1)) ∧
    (∀ e, first = SendResp.convErr e →
      callLua first second loadOk = (Except.error (Error.redisError e), 1)) ∧
    (∀ a, first = SendResp.convOk a →
      callLua first second loadOk = (Except.ok a, 1)) := by
  refine ⟨?_, ?_, ?_, ?_⟩
  · intro h
    subst h
    cases loadOk <;> exact ⟨rfl, rfl⟩
  · intro e h
    subst h
    rfl
  · intro e h
    subst h
    rfl
  · intro a h
    subst h
    rfl

/-- Witness for C8: a NoScript first response with a *failed* SCRIPT LOAD
still yields the second EVALSHA's value after exactly two EVALSHAs, and a
plain conversion error is returned after a single EVALSHA. -/
theorem callLua_dispatch_witness :
    callLua (A := Nat) SendResp.noScript (SendResp.convOk 7) false =
      (Except.ok 7, 2) ∧
    callLua (A := Nat) (SendResp.convErr RustisErr.aborted)
        (SendResp.convOk 7) false =
      (Except.error (Error.redisError RustisErr.aborted), 1) :=
  ⟨by
    have h := (callLua_dispatch (A := Nat) SendResp.noScript
        (SendResp.convOk 7) false).1 rfl
    exact h.1,
   (callLua_dispatch (A := Nat) (SendResp.convErr RustisErr.aborted)
        (SendResp.convOk 7) false).2.2.1 RustisErr.aborted rfl⟩

/-- C7 (confirmed): the effective expiry handed to the protocol engine is
`expire - delay - floor(random_expire_adjustment * expire_secs)` — computed
deterministically from the fixed factor, no random draw anywhere in the
embedding — and on a cold fetch that value's second count is exactly the
TTL written next to the committed value. -/
theorem fetch_effective_expiry (V : Type) (o : Options) (expire : Nat)
    (h : o.delay + adjustDur o expire ≤ expire) :
    computeEx o expire = some (expire - o.delay - adjustDur o expire) ∧
    (o.disable_cache_read = false →
      0 < durationAsSecs (expire - o.delay - adjustDur o expire) →
      ∀ (v : V) (now : Nat) (ow : String) (u d : Bool),
        fetch o expire (none : RState V) now ow (Except.ok (some v)) u d 1 =
          FetchOutcome.done
            (some ⟨some (some v), none, none,
              some (durationAsSecs (expire - o.delay - adjustDur o expire))⟩)
            (Except.ok (some v))) := by
  have h1 : o.delay ≤ expire := le_trans (Nat.le_add_right _ _) h
  have h2 : durationFromSecs
      (adjustFloor o.random_expire_adjustment (durationAsSecs expire)) ≤
      expire - o.delay := by
    unfold adjustDur at h
    omega
  have hex : computeEx o expire = some (expire - o.delay - adjustDur o expire) := by
    simp [computeEx, durationSub, adjustDur, h1, h2]
  refine ⟨hex, ?_⟩
  intro hflag hpos v now ow u d
  simp [fetch, hex, hflag, strongFetch, strongFetchLoop, getScript,
    takesLockPath, hgetValue, hgetLockUntil, hgetLockOwner, pollAgain,
    LuReply.isLocked, fetchNew, setScript, hsetLockUntil, hsetLockOwner,
    hsetValue, hdelLockUntil, hdelLockOwner, expireKey, delKey,
    Nat.pos_iff_ne_zero.mp hpos]

/-- Witness for C7: the spec's cold-fetch scenario — defaults, nominal
expire 600 s — yields effective expiry 530 s, and the committed entry
carries value, no lock fields, TTL 530. -/
theorem fetch_effective_expiry_witness :
    computeEx defaultOptions (durationFromSecs 600) =
      some (durationFromSecs 530) ∧
    fetch defaultOptions (durationFromSecs 600) (none : RState Nat) 1000 "me"
        (Except.ok (some 42)) true true 1 =
      FetchOutcome.done (some ⟨some (some 42), none, none, some 530⟩)
        (Except.ok (some 42)) := by
  have h := fetch_effective_expiry Nat defaultOptions (durationFromSecs 600)
    (by decide)
  refine ⟨?_, ?_⟩
  · rw [h.1]
    decide
  · exact h.2 rfl (by decide) 42 1000 "me" true true

/-- Options with read-side downgrade enabled, otherwise the defaults. -/
def downOptions : Options :=
  ⟨durationFromSecs 10, durationFromSecs 60, durationFromSecs 3,
   durationFromMillis 100, ⟨1, 10⟩, true, false⟩

/-- C10 (confirmed): for a whole-second nominal expire `s` and whole-second
delay `dSec`, the effective-expiry computation underflows (a Rust panic)
exactly when `s < dSec + floor(adjustment * s)`, and whenever it does,
`fetch` panics for every state, loader and — because the computation
precedes the bypass test — every value of `disable_cache_read`. -/
theorem fetch_underflow_panics (V : Type) (o : Options) (s dSec : Nat)
    (hd : o.delay = durationFromSecs dSec) :
    (computeEx o (durationFromSecs s) = none ↔
      s < dSec + adjustFloor o.random_expire_adjustment s) ∧
    (s < dSec + adjustFloor o.random_expire_adjustment s →
      ∀ (st : RState V) (now : Nat) (ow : String)
        (r : Except Error (Option V)) (u d : Bool) (fuel : Nat),
        fetch o (durationFromSecs s) st now ow r u d fuel =
          FetchOutcome.panicked) := by
  have hb : durationAsSecs (durationFromSecs s) = s := durationAsSecs_fromSecs s
  have hiff : computeEx o (durationFromSecs s) = none ↔
      s < dSec + adjustFloor o.random_expire_adjustment s := by
    unfold computeEx durationSub
    rw [hd, hb]
    unfold durationFromSecs
    generalize adjustFloor o.random_expire_adjustment s = a
    by_cases hc : dSec * 1000000000 ≤ s * 1000000000
    · rw [if_pos hc]
      by_cases hc2 : a * 1000000000 ≤ s * 1000000000 - dSec * 1000000000
      · simp [hc2]
        omega
      · simp [hc2]
        omega
    · rw [if_neg hc]
      simp
      omega
  refine ⟨hiff, ?_⟩
  intro hlt st now ow r u d fuel
  simp [fetch, hiff.mpr hlt]

/-- Witness for C10: with a 10 s nominal expire and default-shaped options
that have `disable_cache_read = true`, the underflow condition holds and
`fetch` panics instead of honouring the bypass flag. -/
theorem fetch_underflow_panics_witness :
    10 < 10 + adjustFloor downOptions.random_expire_adjustment 10 ∧
    computeEx downOptions (durationFromSecs 10) = none ∧
    fetch downOptions (durationFromSecs 10) (none : RState Nat) 0 "x"
        (Except.ok none) true true 1 = FetchOutcome.panicked := by
  have h := fetch_underflow_panics Nat downOptions 10 10 rfl
  exact ⟨by decide, h.1.mpr (by decide),
    h.2 (by decide) none 0 "x" (Except.ok none) true true 1⟩

/-- Hash left behind by an owner that acquired and then crashed: lock
deadline 103, no value, and — the key having been created by GET_SCRIPT's
locking path — no TTL. -/
def stDead : RState Nat := some ⟨none, some 103, some "dead", none⟩

/-- C3 (code bug): every poll of a `fetch` call re-sends the `now` captured
at entry, so when the stored `lockUntil` is at or above that frozen `now`
the steal guard `tonumber(lu) < now` can never fire: the poll loop returns
the numeric `lockUntil` forever — for *every* fuel bound the loop is still
running — and `strong_fetch` never completes, contradicting the spec's
lock-liveness property. -/
theorem strongFetch_frozen_now_starves (V : Type) (st : RState V)
    (now l : Nat) (h : hgetLockUntil st = some l) (hle : now ≤ l) :
    (∀ dl ow fuel, strongFetchLoop now dl ow st fuel = none) ∧
    (∀ (o : Options) (ow : String) (expire : Nat)
      (r : Except Error (Option V)) (u d : Bool) (fuel : Nat),
      strongFetch o now ow expire st r u d fuel = none) := by
  have hpath : takesLockPath st now = false := by
    unfold takesLockPath
    rw [h]
    simpa using Nat.not_lt.mpr hle
  have main : ∀ dl ow fuel, strongFetchLoop (V := V) now dl ow st fuel = none := by
    intro dl ow fuel
    induction fuel with
    | zero => rfl
    | succ n ih =>
      simp [strongFetchLoop, getScript, hpath, h, pollAgain, ih, bumpCalls]
  exact ⟨main, fun o ow expire r u d fuel => by simp [strongFetch, main]⟩

/-- Witness for C3: polling the crashed-owner hash from a fetch that
entered at `now = 100 < 103` makes no progress in 5 polls (nor in any
other number). -/
theorem strongFetch_frozen_now_starves_witness :
    strongFetchLoop 100 103 "me" stDead 5 = none ∧
    strongFetch defaultOptions 100 "me" (durationFromSecs 530) stDead
        (Except.ok (some 1)) true true 5 = none := by
  have h := strongFetch_frozen_now_starves Nat stDead 100 103 rfl (by decide)
  exact ⟨h.1 103 "me" 5, h.2 defaultOptions "me" (durationFromSecs 530)
    (Except.ok (some 1)) true true 5⟩

/-- Tag-deleted entry holding a stale value: `lockUntil = 0`, no owner, so
any reader's first GET_SCRIPT acquires the lock. -/
def stDel : RState Nat := some ⟨some (some 5), some 0, none, some 9⟩

/-- C4 (confirmed): once the lock is acquired, a loader error `e` comes
back from `strong_fetch` as exactly `e` whether or not the fire-and-forget
UNLOCK_SCRIPT round-trip (issued with the call's owner token and
`lock_expire` seconds) succeeds; and UNLOCK_SCRIPT itself rewrites the
hash — `lockUntil := 0`, `lockOwner` removed, TTL refreshed — only when
the stored owner matches, leaving the hash unchanged otherwise. -/
theorem fetchNew_loader_error (V : Type) (o : Options) (st : RState V)
    (now : Nat) (ow : String) (expire : Nat) (e : Error) (d : Bool)
    (fuel : Nat) (hacq : takesLockPath st now = true) :
    (∀ u : Bool,
      strongFetch o now ow expire st (Except.error e) u d (fuel + 1) =
        some ((if u then
                unlockScript (acquiredState o st now ow) ow
                  (durationAsSecs o.lock_expire)
              else acquiredState o st now ow), Except.error e)) ∧
    (∀ (st2 : RState V) (ex2 : Nat), hgetLockOwner st2 ≠ some ow →
      unlockScript st2 ow ex2 = st2) ∧
    (∀ (st2 : RState V) (ex2 : Nat), hgetLockOwner st2 = some ow → 0 < ex2 →
      hgetLockUntil (unlockScript st2 ow ex2) = some 0 ∧
      hgetLockOwner (unlockScript st2 ow ex2) = none ∧
      keyTtl (unlockScript st2 ow ex2) = some ex2 ∧
      hgetValue (unlockScript st2 ow ex2) = hgetValue st2) := by
  refine ⟨?_, ?_, ?_⟩
  · intro u
    cases u <;>
      simp [strongFetch, strongFetchLoop, getScript, hacq, pollAgain,
        LuReply.isLocked, fetchNew, acquiredState]
  · intro st2 ex2 hne
    simp [unlockScript, hne]
  · intro st2 ex2 heq hex
    cases st2 with
    | none => simp [hgetLockOwner] at heq
    | some e2 =>
      simp only [hgetLockOwner] at heq
      simp [unlockScript, heq, hsetLockUntil, hdelLockOwner, expireKey,
        hgetLockUntil, hgetLockOwner, keyTtl, hgetValue,
        Nat.pos_iff_ne_zero.mp hex]

/-- Witness for C4: on a tag-deleted entry the acquiring caller's loader
error `decodeError "boom"` is returned verbatim with the unlock applied,
and an unlock against a foreign owner changes nothing. -/
theorem fetchNew_loader_error_witness :
    strongFetch defaultOptions 100 "me" (durationFromSecs 530) stDel
        (Except.error (Error.decodeError "boom")) true true 1 =
      some (unlockScript (acquiredState defaultOptions stDel 100 "me") "me"
          (durationAsSecs defaultOptions.lock_expire),
        Except.error (Error.decodeError "boom")) ∧
    unlockScript (some ⟨none, none, some "other", none⟩ : RState Nat) "me" 3 =
      some ⟨none, none, some "other", none⟩ := by
  have h := fetchNew_loader_error Nat defaultOptions stDel 100 "me"
    (durationFromSecs 530) (Error.decodeError "boom") true 0 rfl
  exact ⟨by simpa using h.1 true,
    h.2.1 (some ⟨none, none, some "other", none⟩) 3 (by decide)⟩

/-- Default-shaped options with `empty_expire = 0`. -/
def zeroEmptyOptions : Options :=
  ⟨durationFromSecs 10, 0, durationFromSecs 3, durationFromMillis 100,
   ⟨1, 10⟩, false, false⟩

/-- C5 (confirmed): after acquiring the lock, a loader success with an
absent value commits through SET_SCRIPT with the encoded absent marker,
the owner token and `empty_expire` in place of the caller's expire; when
`empty_expire` is 0 seconds a DEL precedes the commit (its failure only
changes which state the no-op SET observes, never the returned value), the
commit no-ops on the deleted key, and in all cases `strong_fetch` returns
the absent value. -/
theorem fetchNew_empty_result (V : Type) (o : Options) (st : RState V)
    (now : Nat) (ow : String) (expire : Nat) (u : Bool) (fuel : Nat)
    (hacq : takesLockPath st now = true) :
    (∀ d : Bool,
      strongFetch o now ow expire st (Except.ok (none : Option V)) u d
          (fuel + 1) =
        some (setScript
            (if (durationAsSecs o.empty_expire == 0) && d then
              delKey (acquiredState o st now ow)
            else acquiredState o st now ow)
            none ow (durationAsSecs o.empty_expire),
          Except.ok none)) ∧
    (durationAsSecs o.empty_expire ≠ 0 → ∀ d : Bool,
      strongFetch o now ow expire st (Except.ok (none : Option V)) u d
          (fuel + 1) =
        some (some ⟨some none, none, none,
            some (durationAsSecs o.empty_expire)⟩,
          Except.ok none)) ∧
    (durationAsSecs o.empty_expire = 0 →
      strongFetch o now ow expire st (Except.ok (none : Option V)) u true
          (fuel + 1) =
        some (none, Except.ok none)) := by
  have hmain : ∀ d : Bool,
      strongFetch o now ow expire st (Except.ok (none : Option V)) u d
          (fuel + 1) =
        some (setScript
            (if (durationAsSecs o.empty_expire == 0) && d then
              delKey (acquiredState o st now ow)
            else acquiredState o st now ow)
            none ow (durationAsSecs o.empty_expire),
          Except.ok none) := by
    intro d
    simp [strongFetch, strongFetchLoop, getScript, hacq, pollAgain,
      LuReply.isLocked, fetchNew, acquiredState]
  have hacqSt : acquiredState o st now ow =
      hsetLockOwner (hsetLockUntil st (now + durationAsSecs o.lock_expire)) ow := by
    simp [acquiredState, getScript, hacq]
  refine ⟨hmain, ?_, ?_⟩
  · intro hne d
    rw [hmain d]
    have hbeq : (durationAsSecs o.empty_expire == 0) = false := by
      simpa using hne
    rw [hbeq]
    simp only [Bool.false_and, if_neg (by simp : ¬(false = true))]
    rw [hacqSt]
    cases st with
    | none =>
      simp [setScript, hsetLockUntil, hsetLockOwner, hgetLockOwner,
        hsetValue, hdelLockUntil, hdelLockOwner, expireKey, hne]
    | some e =>
      simp [setScript, hsetLockUntil, hsetLockOwner, hgetLockOwner,
        hsetValue, hdelLockUntil, hdelLockOwner, expireKey, hne]
  · intro heq
    rw [hmain true]
    simp [heq, setScript, hgetLockOwner, delKey]

/-- Witness for C5: on a tag-deleted entry, an absent loader result is
cached for 60 s under the default options, and physically deleted under
`empty_expire = 0`. -/
theorem fetchNew_empty_result_witness :
    strongFetch defaultOptions 100 "me" (durationFromSecs 530) stDel
        (Except.ok (none : Option Nat)) true true 1 =
      some (some ⟨some none, none, none, some 60⟩, Except.ok none) ∧
    strongFetch zeroEmptyOptions 100 "me" (durationFromSecs 530) stDel
        (Except.ok (none : Option Nat)) true true 1 =
      some (none, Except.ok none) := by
  have h1 := fetchNew_empty_result Nat defaultOptions stDel 100 "me"
    (durationFromSecs 530) true 0 rfl
  have h2 := fetchNew_empty_result Nat zeroEmptyOptions stDel 100 "me"
    (durationFromSecs 530) true 0 rfl
  exact ⟨h1.2.1 (by decide) true, h2.2.2 rfl⟩

/-- Committed, unlocked entry: value present, no lock fields. -/
def stHit : RState Nat := some ⟨some (some 7), none, none, some 100⟩

/-- C1 (counterexample): with only one GET_SCRIPT round-trip of fuel, a
response whose second element is nil terminates the poll loop at once —
one call, no sleep, no re-issue — and `strong_fetch` immediately returns
the decoded cached value, refuting the claim that a nil second element
leads to another poll iteration. -/
theorem strongFetch_nil_returns_immediately :
    strongFetchLoop 50 53 "me" stHit 1 =
      some (stHit, some (some 7), LuReply.nil, 1) ∧
    strongFetch defaultOptions 50 "me" (durationFromSecs 530) stHit
        (Except.ok (some 1)) true true 1 = some (stHit, Except.ok (some 7)) :=
  ⟨rfl, rfl⟩

/-- Entry mid-refresh by another owner: lock held until 200, no value. -/
def stPolling : RState Nat := some ⟨none, some 200, some "other", none⟩

/-- C1 (amended): only a *numeric* second element makes the client sleep
and re-issue GET_SCRIPT (one more loop iteration); a nil second element
exits the loop after the call that produced it, and `fetch` then returns
at once with the decoded cached value. -/
theorem strongFetchLoop_reply_dispatch (V : Type) (st : RState V)
    (now dl : Nat) (ow : String) (fuel : Nat) :
    (∀ l, (getScript st now dl ow).2.2 = LuReply.num l →
      strongFetchLoop now dl ow st (fuel + 1) =
        bumpCalls (strongFetchLoop now dl ow (getScript st now dl ow).1 fuel)) ∧
    ((getScript st now dl ow).2.2 = LuReply.nil →
      strongFetchLoop now dl ow st (fuel + 1) =
        some ((getScript st now dl ow).1, (getScript st now dl ow).2.1,
          LuReply.nil, 1)) ∧
    ((getScript st now dl ow).2.2 = LuReply.nil →
      ∀ (o : Options) (expire : Nat) (r : Except Error (Option V)) (u d : Bool)
        (payload : Option V),
        dl = now + durationAsSecs o.lock_expire →
        (getScript st now dl ow).2.1 = some payload →
        strongFetch o now ow expire st r u d (fuel + 1) =
          some ((getScript st now dl ow).1, Except.ok payload)) := by
  refine ⟨?_, ?_, ?_⟩
  · intro l hl
    simp [strongFetchLoop, hl, pollAgain]
  · intro hl
    simp [strongFetchLoop, hl, pollAgain]
  · intro hl o expire r u d payload hdl hv
    subst hdl
    simp [strongFetch, strongFetchLoop, hl, pollAgain, LuReply.isLocked, hv]

/-- Witness for the amended C1: a numeric reply (foreign lock until 200)
spends one more iteration, while the nil reply on a committed entry exits
after a single call and `strong_fetch` returns the cached 7. -/
theorem strongFetchLoop_reply_dispatch_witness :
    strongFetchLoop 50 53 "me" stPolling 1 =
      bumpCalls (strongFetchLoop 50 53 "me" (getScript stPolling 50 53 "me").1 0) ∧
    strongFetchLoop 50 53 "me" stHit 1 =
      some ((getScript stHit 50 53 "me").1, (getScript stHit 50 53 "me").2.1,
        LuReply.nil, 1) ∧
    strongFetch defaultOptions 50 "me" 999 stHit (Except.ok (some 1)) true
        true 1 =
      some ((getScript stHit 50 53 "me").1, Except.ok (some 7)) := by
  have hp := strongFetchLoop_reply_dispatch Nat stPolling 50 53 "me" 0
  have hh := strongFetchLoop_reply_dispatch Nat stHit 50 53 "me" 0
  exact ⟨hp.1 200 rfl, hh.2.1 rfl,
    hh.2.2 rfl defaultOptions 999 (Except.ok (some 1)) true true (some 7)
      rfl rfl⟩

end Rdcache
